import Mathlib

/-!
# Verification of `detect_non_installed_folders_in_steam_common.py`

Shallow embedding of the core of the Steam orphan-directory detector:

* `get_manifest_install_directory` — reads one manifest file and extracts the
  quoted value following the `"installdir"` key (lines 33–51 of the source).
* `get_set_of_installed_directories` — maps the extractor over all manifests
  (lines 92–103).
* `get_manifests_and_detect_game_directories` — filters glob results into
  manifests and candidate game directories (lines 77–89).
* `find_unmapped_directories` — the reconciler (lines 106–113).

Modelling conventions:

* Strings are Lean `String`s; Python compares strings by code points, which is
  exactly the order of Mathlib's `LinearOrder String` (lexicographic on
  `Char`).
* Filesystem reads are fallible: a manifest file is `Option (List String)`
  (its list of lines, `none` when `open()` raises).  Exceptions propagate as
  `Except Unit`.
* Python `set`s are modelled as `List`s; only membership matters to every
  property below, and deduplication does not change membership.
* `glob` results and `isfile`/`isdir` answers are inputs to the embedding.
-/

/-- Python's `str.strip()` whitespace characters (ASCII whitespace). -/
def pyIsSpace (c : Char) : Bool :=
  c = ' ' || c = '\t' || c = '\n' || c = '\r' || c = '\x0b' || c = '\x0c'

/-- Python `str.strip()`: drop leading and trailing whitespace. -/
def pyStrip (cs : List Char) : List Char :=
  ((cs.dropWhile pyIsSpace).reverse.dropWhile pyIsSpace).reverse

/-- Python `str.lower()`; the program only lower-cases ASCII names, where
Python's `lower` agrees with `Char.toLower`. -/
def pyLower (s : String) : String :=
  String.mk (s.data.map Char.toLower)

/-- `os.path.basename`: the part of the path after the last `/`. -/
def basename (p : String) : String :=
  String.mk ((p.data.reverse.takeWhile (· != '/')).reverse)

/-- Source line 18: `STEAM_FOLDER_IGNORE_LIST = {'Steam Controller Configs'.lower()}`. -/
def STEAM_FOLDER_IGNORE_LIST : List String :=
  [pyLower "Steam Controller Configs"]

/-- Source line 19: `STEAM_MANIFEST_INSTALL_DIR_KEY = '"installdir"'`, as a
character list. -/
def STEAM_MANIFEST_INSTALL_DIR_KEY : List Char :=
  "\"installdir\"".data

/-- Helper for `str.replace(key, "")`: scan one character at a time; while
`skip > 0` we are inside an occurrence that is being removed and the
character is dropped without further matching; at `skip = 0`, a key-token
prefix match drops the character and schedules the remaining `length - 1`
characters of the occurrence for dropping, so scanning resumes only after
the whole removed occurrence (non-overlapping, left to right). -/
def removeKeyTokenAux : Nat → List Char → List Char
  | _, [] => []
  | skip + 1, _ :: cs => removeKeyTokenAux skip cs
  | 0, c :: cs =>
    if STEAM_MANIFEST_INSTALL_DIR_KEY.isPrefixOf (c :: cs) then
      removeKeyTokenAux (STEAM_MANIFEST_INSTALL_DIR_KEY.length - 1) cs
    else
      c :: removeKeyTokenAux 0 cs

/-- `line.replace(STEAM_MANIFEST_INSTALL_DIR_KEY, "")` (source line 43). -/
def removeKeyToken (cs : List Char) : List Char :=
  removeKeyTokenAux 0 cs

/-- Python's `in` on strings: `key` occurs as a contiguous substring, i.e. is
a prefix of some suffix. -/
def containsToken (key : List Char) : List Char → Bool
  | [] => key.isEmpty
  | c :: cs => key.isPrefixOf (c :: cs) || containsToken key cs

/-- `re.findall(r'(?<=").+(?=")', s)` (source lines 20 and 42) on a string
with no interior newline (the argument is a single line from `readlines`, so
`'\n'` can occur only as its final character, after every quote).

`.+` is greedy, so a match attempt at position `p` (which requires a `"` at
`p - 1`) matches up to just before the **last** `"` of the string, provided
that quote lies at least two places after `p - 1`.  Scanning left to right,
the first attempt position is just after the first `"`; if it fails, every
later attempt sees even fewer quotes ahead and fails too, and after a success
the rest of the string contains no further `"` followed by a character and a
`"`.  Hence `findall` returns the characters strictly between the first and
the last quote when at least one character separates them, and nothing
otherwise — never more than one match. -/
def MANIFEST_INSTALL_REGEX_findall (cs : List Char) : List (List Char) :=
  let afterFirst := (cs.dropWhile (· != '"')).drop 1
  if afterFirst.contains '"' then
    let between := ((afterFirst.reverse.dropWhile (· != '"')).drop 1).reverse
    if between.isEmpty then [] else [between]
  else []

/-- The `for line in lines` loop of `get_manifest_install_directory` (source
lines 40–49): find the first line whose stripped form contains the key token;
on that line run `findall` on the line with the key token removed; if exactly
one match is found it is the install directory, otherwise the error is logged
and the manifest yields no value; either way the loop `break`s. -/
def scanManifestLines : List String → Option String
  | [] => none
  | line :: rest =>
    if containsToken STEAM_MANIFEST_INSTALL_DIR_KEY (pyStrip line.data) then
      match MANIFEST_INSTALL_REGEX_findall (removeKeyToken line.data) with
      | [v] => some (String.mk v)
      | _ => none
    else
      scanManifestLines rest

/-- `get_manifest_install_directory` (source lines 33–51).  `open()` on an
unreadable file raises — there is no `try`/`except` in the function, so the
exception propagates to the caller (`Except.error`).  On a readable file the
line scan runs and the function returns its `Optional[str]` result. -/
def get_manifest_install_directory (manifest_file : Option (List String)) :
    Except Unit (Option String) :=
  match manifest_file with
  | none => Except.error ()
  | some lines => Except.ok (scanManifestLines lines)

/-- `get_set_of_installed_directories` (source lines 92–103):
`set(map(get_manifest_install_directory, manifests))`.  The map is forced
left to right by the `set` constructor; the first exception raised by
`get_manifest_install_directory` propagates and the set is never produced.
Every returned value — including `None` — is added to the set. -/
def get_set_of_installed_directories (manifests : List (Option (List String))) :
    Except Unit (List (Option String)) :=
  match manifests with
  | [] => Except.ok []
  | m :: ms =>
    match get_manifest_install_directory m with
    | Except.error e => Except.error e
    | Except.ok v =>
      match get_set_of_installed_directories ms with
      | Except.error e => Except.error e
      | Except.ok vs => Except.ok (v :: vs)

/-- `get_manifests_and_detect_game_directories` (source lines 77–89).  The two
glob listings and the `isfile`/`isdir` predicates are inputs of the model.
Returns `(game_folders, manifests)`: manifests are the glob results that are
regular files; game folders are the glob results that are directories and
whose lower-cased base name is not in the ignore set. -/
def get_manifests_and_detect_game_directories
    (games_folder_glob manifests_glob : List String)
    (isfile isdir : String → Bool) : List String × List String :=
  (games_folder_glob.filter
      (fun x => isdir x && !(STEAM_FOLDER_IGNORE_LIST.contains (pyLower (basename x)))),
    manifests_glob.filter (fun x => isfile x))

/-- Python `sorted` on a list of strings: the unique permutation that is
sorted by the code-point lexicographic order (Mathlib's `≤` on `String`). -/
def pySortedStrings (l : List String) : List String :=
  List.insertionSort (· ≤ ·) l

/-- `find_unmapped_directories` (source lines 106–113): iterate over the
candidate map `(directory_name, detected_directory)`, keep the paths whose
base name is not a member of the installed set, and return them sorted.  The
installed set is the value of `get_set_of_installed_directories`, whose
elements are `Option String` (`none` for a manifest that yielded no value);
the membership test compares the `str` key against each element, so `none`
never matches. -/
def find_unmapped_directories (game_folders_base_paths : List (String × String))
    (installed_list : List (Option String)) : List String :=
  pySortedStrings
    ((game_folders_base_paths.filter
        (fun p => !(installed_list.contains (some p.1)))).map (fun p => p.2))

/-! ## Helper lemmas about the reconciler -/

/-- Membership in the reconciler's output: the result contains exactly the
paths `x` for which the candidate map has an entry `(k, x)` whose key `k` is
not a member of the installed set. -/
theorem mem_find_unmapped (C : List (String × String)) (I : List (Option String))
    (x : String) :
    x ∈ find_unmapped_directories C I ↔ ∃ k, (k, x) ∈ C ∧ some k ∉ I := by
  unfold find_unmapped_directories pySortedStrings
  rw [List.mem_insertionSort]
  simp only [List.mem_map, List.mem_filter, List.contains, List.elem_eq_mem,
    Bool.not_eq_eq_eq_not, Bool.not_true, decide_eq_false_iff_not]
  constructor
  · rintro ⟨⟨k, v⟩, ⟨hmem, hcont⟩, rfl⟩
    exact ⟨k, hmem, hcont⟩
  · rintro ⟨k, hmem, hnot⟩
    exact ⟨(k, x), ⟨hmem, hnot⟩, rfl⟩

/-- The reconciler's output is sorted with respect to `≤` on `String`. -/
theorem find_unmapped_sorted (C : List (String × String)) (I : List (Option String)) :
    (find_unmapped_directories C I).Sorted (· ≤ ·) :=
  List.sorted_insertionSort _ _

/-- The reconciler's output is a permutation of the paths of the candidate
entries whose key is not in the installed set, in candidate-map order. -/
theorem find_unmapped_perm (C : List (String × String)) (I : List (Option String)) :
    (find_unmapped_directories C I).Perm
      ((C.filter (fun p => !(I.contains (some p.1)))).map (fun p => p.2)) :=
  List.perm_insertionSort _ _

/-! ## Claims about the reconciler -/

/-- C1: for every candidate map `C` (base name ↦ full path, so equal paths
have equal keys, hypothesis `hinj`) and every installed set `I`,
`find_unmapped_directories C I` consists exactly of the paths of the entries
of `C` whose key is not a member of `I` (membership characterisation and
permutation), is sorted lexicographically, and never includes the path of an
entry whose base name is in `I`. -/
theorem find_unmapped_directories_spec (C : List (String × String))
    (I : List (Option String))
    (hinj : ∀ p ∈ C, ∀ q ∈ C, p.2 = q.2 → p.1 = q.1) :
    (∀ x, x ∈ find_unmapped_directories C I ↔ ∃ k, (k, x) ∈ C ∧ some k ∉ I)
    ∧ (find_unmapped_directories C I).Perm
        ((C.filter (fun p => !(I.contains (some p.1)))).map (fun p => p.2))
    ∧ (find_unmapped_directories C I).Sorted (· ≤ ·)
    ∧ (∀ k v, (k, v) ∈ C → some k ∈ I → v ∉ find_unmapped_directories C I) := by
  refine ⟨fun x => mem_find_unmapped C I x, find_unmapped_perm C I,
    find_unmapped_sorted C I, fun k v hkv hkI hmem => ?_⟩
  rcases (mem_find_unmapped C I v).1 hmem with ⟨k', hk'v, hk'I⟩
  have hk : k' = k := hinj (k', v) hk'v (k, v) hkv rfl
  exact hk'I (by rw [hk]; exact hkI)

/-- Witness for C1 at a concrete input: with candidates
`{Alpha ↦ /c/Alpha, Beta ↦ /c/Beta}` and installed set `{Alpha}`, the path
`/c/Alpha` is not reported. -/
theorem find_unmapped_directories_spec_witness :
    "/c/Alpha" ∉ find_unmapped_directories
      [("Alpha", "/c/Alpha"), ("Beta", "/c/Beta")] [some "Alpha"] :=
  (find_unmapped_directories_spec [("Alpha", "/c/Alpha"), ("Beta", "/c/Beta")]
    [some "Alpha"] (by decide)).2.2.2 "Alpha" "/c/Alpha" (by decide) (by decide)

/-- C5: invariant of the reconciler — an entry whose base name appears in the
installed set under exact, case-sensitive string comparison is excluded from
the result (the side condition says every entry carrying the same path also
has its key installed, which holds in the program because the key is the base
name of the path); and the membership test is not case-insensitive: a
candidate `Game` is still reported when only the differently-cased `game` is
installed. -/
theorem find_unmapped_exact_case_sensitive :
    (∀ (C : List (String × String)) (I : List (Option String)) (k v : String),
        (k, v) ∈ C → some k ∈ I → (∀ p ∈ C, p.2 = v → some p.1 ∈ I) →
        v ∉ find_unmapped_directories C I)
    ∧ find_unmapped_directories [("Game", "/c/Game")] [some "game"] = ["/c/Game"] := by
  constructor
  · intro C I k v _ _ hall hmem
    rcases (mem_find_unmapped C I v).1 hmem with ⟨k', hk'v, hk'I⟩
    exact hk'I (hall (k', v) hk'v rfl)
  · decide

/-- Witness for C5 at a concrete input: with candidates `{A ↦ /c/A}` and
installed set `{A}`, the path `/c/A` is excluded. -/
theorem find_unmapped_exact_case_sensitive_witness :
    "/c/A" ∉ find_unmapped_directories [("A", "/c/A")] [some "A"] :=
  find_unmapped_exact_case_sensitive.1 [("A", "/c/A")] [some "A"] "A" "/c/A"
    (by decide) (by decide) (by decide)

/-- C9: the reconciler is a pure function of its two arguments — re-running it
on identical inputs yields the identical ordered result — and its output is
deterministic even across different enumeration orders of the candidate map:
permuting the candidate entries does not change the ordered result. -/
theorem find_unmapped_deterministic (C C' : List (String × String))
    (I : List (Option String)) (h : C.Perm C') :
    find_unmapped_directories C I = find_unmapped_directories C I
    ∧ find_unmapped_directories C I = find_unmapped_directories C' I := by
  refine ⟨rfl, ?_⟩
  refine List.eq_of_perm_of_sorted ?_ (find_unmapped_sorted C I) (find_unmapped_sorted C' I)
  exact (find_unmapped_perm C I).trans
    (((h.filter _).map _).trans (find_unmapped_perm C' I).symm)

/-- Witness for C9 at a concrete input: swapping the two candidate entries
leaves the ordered result unchanged. -/
theorem find_unmapped_deterministic_witness :
    find_unmapped_directories [("A", "/c/A"), ("B", "/c/B")] [some "A"]
      = find_unmapped_directories [("B", "/c/B"), ("A", "/c/A")] [some "A"] :=
  (find_unmapped_deterministic [("A", "/c/A"), ("B", "/c/B")]
    [("B", "/c/B"), ("A", "/c/A")] [some "A"]
    (List.isPerm_iff.mp (by decide))).2

/-- C10: the reconciler is antitone in the installed set — growing the
installed set can only shrink the result — and never fabricates paths: every
reported path is the path of some candidate entry. -/
theorem find_unmapped_antitone_no_fabrication (C : List (String × String))
    (I I' : List (Option String)) (hsub : I ⊆ I') :
    (∀ x, x ∈ find_unmapped_directories C I' → x ∈ find_unmapped_directories C I)
    ∧ (∀ x, x ∈ find_unmapped_directories C I → ∃ k, (k, x) ∈ C) := by
  constructor
  · intro x hx
    rcases (mem_find_unmapped C I' x).1 hx with ⟨k, hkC, hkI'⟩
    exact (mem_find_unmapped C I x).2 ⟨k, hkC, fun hkI => hkI' (hsub hkI)⟩
  · intro x hx
    rcases (mem_find_unmapped C I x).1 hx with ⟨k, hkC, _⟩
    exact ⟨k, hkC⟩

/-- Witness for C10 at a concrete input: with `I = {A} ⊆ I' = {A, B}`, the
path `/c/C` reported under the larger set is also reported under the smaller
one. -/
theorem find_unmapped_antitone_no_fabrication_witness :
    "/c/C" ∈ find_unmapped_directories
      [("A", "/c/A"), ("B", "/c/B"), ("C", "/c/C")] [some "A"] :=
  (find_unmapped_antitone_no_fabrication
    [("A", "/c/A"), ("B", "/c/B"), ("C", "/c/C")]
    [some "A"] [some "A", some "B"] (by intro a ha; fin_cases ha; decide)).1
    "/c/C" (by decide)

/-! ## Claims about the directory locator and the extractor -/

/-- C6: any glob entry whose base name, lower-cased, is a member of the
ignore set is dropped from the candidate set by the directory locator — for
any glob listing and any `isfile`/`isdir` oracle, hence regardless of what
any manifest contains (manifests do not even reach this filter). -/
theorem ignore_list_excludes_entry
    (games_folder_glob manifests_glob : List String)
    (isfile isdir : String → Bool) (p : String)
    (h : pyLower (basename p) ∈ STEAM_FOLDER_IGNORE_LIST) :
    p ∉ (get_manifests_and_detect_game_directories
      games_folder_glob manifests_glob isfile isdir).1 := by
  intro hmem
  unfold get_manifests_and_detect_game_directories at hmem
  simp only [List.mem_filter, Bool.and_eq_true, Bool.not_eq_eq_eq_not,
    Bool.not_true, List.contains, List.elem_eq_mem, decide_eq_false_iff_not] at hmem
  exact hmem.2.2 h

/-- Witness for C6 at concrete inputs: the case variants
`STEAM CONTROLLER CONFIGS` and `Steam Controller Configs` are both dropped
even though `isdir` holds for them. -/
theorem ignore_list_excludes_entry_witness :
    "/s/common/STEAM CONTROLLER CONFIGS" ∉ (get_manifests_and_detect_game_directories
      ["/s/common/STEAM CONTROLLER CONFIGS", "/s/common/Game"] []
      (fun _ => true) (fun _ => true)).1
    ∧ "/s/common/Steam Controller Configs" ∉ (get_manifests_and_detect_game_directories
      ["/s/common/Steam Controller Configs"] [] (fun _ => true) (fun _ => true)).1 :=
  ⟨ignore_list_excludes_entry ["/s/common/STEAM CONTROLLER CONFIGS", "/s/common/Game"]
      [] (fun _ => true) (fun _ => true) "/s/common/STEAM CONTROLLER CONFIGS" (by decide),
    ignore_list_excludes_entry ["/s/common/Steam Controller Configs"]
      [] (fun _ => true) (fun _ => true) "/s/common/Steam Controller Configs" (by decide)⟩

/-- C7: the manifest line scan stops at the first line containing the key
token — the result does not depend on anything after that line, whether the
extraction on it succeeds or reports a parse failure. -/
theorem scan_stops_at_first_key_line (pre : List String) (kl : String)
    (rest rest' : List String)
    (hpre : ∀ l ∈ pre, containsToken STEAM_MANIFEST_INSTALL_DIR_KEY (pyStrip l.data) = false)
    (hkl : containsToken STEAM_MANIFEST_INSTALL_DIR_KEY (pyStrip kl.data) = true) :
    scanManifestLines (pre ++ kl :: rest) = scanManifestLines (pre ++ kl :: rest') := by
  induction pre with
  | nil =>
    simp only [List.nil_append, scanManifestLines, hkl, if_true]
  | cons l ls ih =>
    have hl := hpre l (List.mem_cons_self l ls)
    simp only [List.cons_append, scanManifestLines, hl, Bool.false_eq_true, if_false]
    exact ih (fun x hx => hpre x (List.mem_cons_of_mem l hx))

/-- Witness for C7 at a concrete input: with a successful key line in second
position, replacing everything after it — here by a second key line with a
different value — does not change the extraction result. -/
theorem scan_stops_at_first_key_line_witness :
    scanManifestLines ["x", "\"installdir\" \"MyGame\"", "\"installdir\" \"Other\""]
      = scanManifestLines ["x", "\"installdir\" \"MyGame\""] := by
  have h := scan_stops_at_first_key_line ["x"] "\"installdir\" \"MyGame\""
    ["\"installdir\" \"Other\""] [] (by decide) (by decide)
  exact h

/-- C8: the spec's scenario — a manifest whose line is
`"installdir"  "MyGame"` (key token, two spaces, one double-quoted value)
extracts exactly the name `MyGame`. -/
theorem extract_single_quoted_value :
    get_manifest_install_directory (some ["\"installdir\"  \"MyGame\""])
      = Except.ok (some "MyGame") := by
  have h : scanManifestLines ["\"installdir\"  \"MyGame\""] = some "MyGame" := by decide
  simp [get_manifest_install_directory, h]

/-- C3 (behaviour of the code at the claim's scenario): the regex
`(?<=").+(?=")` is greedy, so on the line `"installdir" "A" "B"` — two quoted
substrings after the key token — `findall` produces the single match
`A" "B` (everything between the first and the last quote), the
`len(found) != 1` guard does not fire, and extraction *succeeds* with that
value instead of reporting a parse failure. -/
theorem greedy_regex_two_quoted_substrings :
    get_manifest_install_directory (some ["\"installdir\" \"A\" \"B\""])
      = Except.ok (some "A\" \"B")
    ∧ MANIFEST_INSTALL_REGEX_findall (removeKeyToken "\"installdir\" \"A\" \"B\"".data)
        = ["A\" \"B".data] := by
  constructor
  · have h : scanManifestLines ["\"installdir\" \"A\" \"B\""] = some "A\" \"B" := by decide
    simp [get_manifest_install_directory, h]
  · decide

/-! ## Helper lemmas about the manifest scan -/

/-- When every manifest file is readable, the batch scan completes and
returns the per-manifest extraction results in order. -/
theorem get_set_of_installed_directories_map_some (ms : List (List String)) :
    get_set_of_installed_directories (ms.map some)
      = Except.ok (ms.map scanManifestLines) := by
  induction ms with
  | nil => rfl
  | cons m rest ih =>
    simp [get_set_of_installed_directories, get_manifest_install_directory, ih]

/-- A manifest none of whose lines contains the key token yields no value. -/
theorem scanManifestLines_eq_none_of_no_key (m : List String)
    (h : ∀ l ∈ m, containsToken STEAM_MANIFEST_INSTALL_DIR_KEY (pyStrip l.data) = false) :
    scanManifestLines m = none := by
  induction m with
  | nil => rfl
  | cons l ls ih =>
    simp only [scanManifestLines, h l (List.mem_cons_self l ls), Bool.false_eq_true,
      if_false]
    exact ih (fun x hx => h x (List.mem_cons_of_mem l hx))

/-- Against an installed set all of whose elements are `none`, no candidate
is filtered out: the reconciler reports every candidate path, sorted. -/
theorem find_unmapped_all_none (C : List (String × String))
    (L : List (Option String)) (hL : ∀ o ∈ L, o = none) :
    find_unmapped_directories C L = pySortedStrings (C.map (fun p => p.2)) := by
  unfold find_unmapped_directories
  have hfilter : C.filter (fun p => !(L.contains (some p.1))) = C := by
    rw [List.filter_eq_self]
    intro p _
    simp only [List.contains, List.elem_eq_mem, Bool.not_eq_eq_eq_not, Bool.not_true,
      decide_eq_false_iff_not]
    intro hmem
    exact Option.some_ne_none p.1 (hL _ hmem)
  rw [hfilter]

/-! ## Claims about failure handling in the manifest scan -/

/-- C2 counterexample: one unreadable manifest (its `open()` raises) aborts
the whole scan even though a second, perfectly well-formed manifest remains —
the per-manifest failure is surfaced as a fatal error, the scan over the
remaining manifests does not complete, and no installed set is produced. -/
theorem unreadable_manifest_aborts_scan :
    get_set_of_installed_directories [none, some ["\"installdir\" \"MyGame\""]]
      = Except.error () := rfl

/-- C2 (amended): a failure confined to a single manifest's *content* is
absorbed locally — for every list of readable manifests the scan completes
normally and each manifest contributes exactly its extraction result, which
is `none` (no installed name) for a manifest whose key line is malformed,
e.g. one whose value is not quoted.  (An unreadable manifest file, by
contrast, aborts the scan — see the counterexample.) -/
theorem malformed_manifest_absorbed (ms : List (List String)) :
    get_set_of_installed_directories (ms.map some)
      = Except.ok (ms.map scanManifestLines)
    ∧ scanManifestLines ["\"installdir\" MyGame"] = none :=
  ⟨get_set_of_installed_directories_map_some ms, by decide⟩

/-- C4 counterexample: a readable manifest whose lines never contain the key
contributes `None` to the installed set — the code's `set(map(...))` does not
filter empty extraction results, so with one key-less manifest the installed
set is `{None}`, not the empty set. -/
theorem keyless_manifest_contributes_none :
    get_set_of_installed_directories [some ["no key here"]]
      = Except.ok [(none : Option String)]
    ∧ [(none : Option String)] ≠ ([] : List (Option String)) := by
  constructor
  · have h : scanManifestLines ["no key here"] = none := by decide
    simp [get_set_of_installed_directories, get_manifest_install_directory, h]
  · decide

/-- C4 (amended): when manifests are present but none of their lines contains
the key, every manifest contributes `None` — the installed set is `{None}`
rather than empty — and, since no directory base name equals `None`, the
reconciler still reports every candidate directory, sorted. -/
theorem no_key_manifests_give_all_candidates (ms : List (List String))
    (C : List (String × String))
    (hms : ∀ m ∈ ms, ∀ l ∈ m,
      containsToken STEAM_MANIFEST_INSTALL_DIR_KEY (pyStrip l.data) = false) :
    get_set_of_installed_directories (ms.map some)
        = Except.ok (ms.map (fun _ => (none : Option String)))
    ∧ find_unmapped_directories C (ms.map (fun _ => (none : Option String)))
        = pySortedStrings (C.map (fun p => p.2)) := by
  constructor
  · rw [get_set_of_installed_directories_map_some ms]
    have : ms.map scanManifestLines = ms.map (fun _ => none) :=
      List.map_congr_left (fun m hm => scanManifestLines_eq_none_of_no_key m (hms m hm))
    rw [this]
  · exact find_unmapped_all_none C _ (by simp)

/-- Witness for C4's amended theorem at a concrete input: one key-less
manifest, two candidates; the installed set is `[None]` and both candidate
paths are reported in sorted order. -/
theorem no_key_manifests_give_all_candidates_witness :
    get_set_of_installed_directories [some ["x"]]
        = Except.ok [(none : Option String)]
    ∧ find_unmapped_directories [("B", "/c/B"), ("A", "/c/A")]
          [(none : Option String)]
        = pySortedStrings (([("B", "/c/B"), ("A", "/c/A")] :
            List (String × String)).map (fun p => p.2)) :=
  no_key_manifests_give_all_candidates [["x"]] [("B", "/c/B"), ("A", "/c/A")]
    (by decide)
